import Mathlib

set_option maxRecDepth 40000

/-!
Verification development for the blog-site detection and pagination crawler
of `src/main.py` (functions `get_site_info`, `get_posts`, `get_meta_tags`).

The Python code is shallowly embedded:
* parsed-JSON values (`json.loads` results) become the inductive `JVal`;
  JSON numbers are modelled as integers (no float appears in any crawled
  field the crawler touches: ids, page numbers, `nextPage`);
* the crawl-state dictionary built by `get_site_info` becomes the structure
  `SiteInfo`; a key that may be absent from the dictionary becomes an
  `Option` field, and reading an absent key is a `KeyError`;
* Python exceptions become `Except String`, with the error string naming the
  Python exception; code wrapped in `try/except` catches them;
* the network collaborators (`requests.get(...).text`, `requests.get(...).json()`,
  `requests.request("POST", ...).json()`) are stubbed: `get_site_info` takes
  the single fetch result, `get_posts` takes the list of successive fetch
  results (one consumed per request issued), each an `Except String String`
  whose error constructor models both a network exception and a `.json()`
  decode failure on the raw body;
* `str.replace`, substring containment (`in`), the two `re.search` patterns,
  `json.loads`, `datetime.strptime`/`strftime` are modelled by executable
  Lean functions below, each documented at its definition.
-/

/-! ## Values of parsed JSON / Python dictionaries -/

/-- Value produced by `json.loads`.  Numbers are modelled as integers:
every numeric field the crawler reads (`id`, `nextPage`, page numbers,
`BLOG.id`) is an integer in the upstream protocols, and the model JSON
decoder below rejects fraction/exponent forms rather than approximating
floats. -/
inductive JVal where
  | null
  | bool (b : Bool)
  | num (n : Int)
  | str (s : String)
  | arr (xs : List JVal)
  | obj (kvs : List (String × JVal))

/-- Lookup in a parsed JSON object; with duplicate keys the last binding
wins, as in a Python dict built by `json.loads`. -/
def pyGet (kvs : List (String × JVal)) (k : String) : Option JVal :=
  match kvs with
  | [] => none
  | (k0, v0) :: rest =>
    match pyGet rest k with
    | some v => some v
    | none => if k0 = k then some v0 else none

/-- Subscript access `v[k]` on a parsed JSON value: `KeyError` on a missing
key, `TypeError` when `v` is not an object (dict). -/
def pyIndex (v : JVal) (k : String) : Except String JVal :=
  match v with
  | .obj kvs =>
    match pyGet kvs k with
    | some w => .ok w
    | none => .error ("KeyError: " ++ k)
  | _ => .error "TypeError: value is not subscriptable by str"

/-- Model of Python `str(x)` / f-string interpolation for a parsed JSON
value.  Lists and dicts would be rendered by `repr`; the crawler never
interpolates those, so they are given a schematic rendering here. -/
def pystr (v : JVal) : String :=
  match v with
  | .null => "None"
  | .bool b => if b then "True" else "False"
  | .num n => toString n
  | .str s => s
  | .arr _ => "<list>"
  | .obj _ => "<dict>"

/-- Model of Python `+` on two parsed JSON values (used for
`row['url'] + row['subPath']`): string concatenation, integer addition,
`TypeError` otherwise. -/
def pyAdd (a b : JVal) : Except String JVal :=
  match a, b with
  | .str x, .str y => .ok (.str (x ++ y))
  | .num x, .num y => .ok (.num (x + y))
  | _, _ => .error "TypeError: unsupported operand types for +"

/-- Coercion used where Python requires a `str` argument
(`datetime.strptime` input). -/
def asStr (v : JVal) : Except String String :=
  match v with
  | .str s => .ok s
  | _ => .error "TypeError: expected str"

/-- Discriminates the error constructor of an `Except` result; `true` means
the modelled Python call raised an exception. -/
def isErr {ε α : Type} : Except ε α → Bool
  | .error _ => true
  | .ok _ => false

/-! ## Character-list string operations

Python string methods used by the crawler, modelled on `String.data`
(the underlying `List Char`) so that every operation reduces inside the
kernel. -/

/-- Worker for `pyReplace`: replaces non-overlapping occurrences of `pat`
left to right.  `fuel` only needs to be at least the length of the scanned
list (each step consumes at least one character). -/
def replCs (pat new : List Char) : Nat → List Char → List Char
  | 0, l => l
  | _ + 1, [] => []
  | fuel + 1, c :: cs =>
    if pat.isPrefixOf (c :: cs) then
      new ++ replCs pat new fuel ((c :: cs).drop pat.length)
    else
      c :: replCs pat new fuel cs

/-- Model of Python `s.replace(pat, new)` for a non-empty `pat` (every
pattern the crawler replaces — `#page`, `#cursor`, `#id` — is a non-empty
literal; the empty-pattern interleaving behaviour of Python is not
modelled and the guard returns `s` unchanged). -/
def pyReplace (s pat new : String) : String :=
  if pat.data.isEmpty then s
  else ⟨replCs pat.data new.data s.data.length s.data⟩

/-- Occurrence of `pat` as a contiguous substring, scanning left to right. -/
def containsCs (pat : List Char) : List Char → Bool
  | [] => pat.isEmpty
  | c :: cs => pat.isPrefixOf (c :: cs) || containsCs pat cs

/-- Model of the Python membership test `pat in s` on strings. -/
def containsStr (s pat : String) : Bool :=
  containsCs pat.data s.data

/-- Whitespace class used by the `re` module for `\s` (ASCII range). -/
def isWs (c : Char) : Bool :=
  c = ' ' || c = '\t' || c = '\n' || c = '\x0b' || c = '\x0c' || c = '\r'

/-- Left brace character, written via its code point. -/
def lbrace : Char := Char.ofNat 123

/-- Right brace character, written via its code point. -/
def rbrace : Char := Char.ofNat 125

/-! ## Model of `json.loads`

A strict JSON decoder over `List Char`, executable inside the kernel.
Two documented deviations from CPython `json.loads`, both outside every
code path the crawler exercises in this development: number literals with a
fraction or exponent part (floats) and the extensions `NaN`/`Infinity` are
rejected instead of producing floats, and a `\uXXXX` escape is decoded as a
single code point (surrogate pairs are not combined). -/

/-- JSON whitespace accepted by the decoder between tokens. -/
def jIsWs (c : Char) : Bool :=
  c = ' ' || c = '\t' || c = '\n' || c = '\r'

/-- Drops leading JSON whitespace. -/
def jSkipWs : List Char → List Char
  | [] => []
  | c :: cs => if jIsWs c then jSkipWs cs else c :: cs

/-- Value of a hexadecimal digit. -/
def hexVal (c : Char) : Option Nat :=
  if c.isDigit then some (c.toNat - 48)
  else if 'a' ≤ c && c ≤ 'f' then some (c.toNat - 87)
  else if 'A' ≤ c && c ≤ 'F' then some (c.toNat - 55)
  else none

/-- Unescaped form of a single-character JSON escape. -/
def escChar (c : Char) : Option Char :=
  if c = '"' then some '"'
  else if c = '\\' then some '\\'
  else if c = '/' then some '/'
  else if c = 'b' then some '\x08'
  else if c = 'f' then some '\x0c'
  else if c = 'n' then some '\n'
  else if c = 'r' then some '\r'
  else if c = 't' then some '\t'
  else none

/-- Decodes the body of a JSON string literal (opening quote already
consumed), returning the decoded characters and the input after the
closing quote. -/
def jstrCs : Nat → List Char → Except String (List Char × List Char)
  | 0, _ => .error "json model: fuel exhausted"
  | _ + 1, [] => .error "json: unterminated string"
  | fuel + 1, c :: cs =>
    if c = '"' then .ok ([], cs)
    else if c = '\\' then
      match cs with
      | [] => .error "json: unterminated escape"
      | e :: cs2 =>
        if e = 'u' then
          match cs2 with
          | h1 :: h2 :: h3 :: h4 :: cs3 =>
            match hexVal h1, hexVal h2, hexVal h3, hexVal h4 with
            | some a, some b, some c3, some d =>
              match jstrCs fuel cs3 with
              | .ok (out, rest) =>
                .ok (Char.ofNat (((a * 16 + b) * 16 + c3) * 16 + d) :: out, rest)
              | .error er => .error er
            | _, _, _, _ => .error "json: invalid unicode escape"
          | _ => .error "json: invalid unicode escape"
        else
          match escChar e with
          | some r =>
            match jstrCs fuel cs2 with
            | .ok (out, rest) => .ok (r :: out, rest)
            | .error er => .error er
          | none => .error "json: invalid escape"
    else if c.toNat < 32 then .error "json: control character in string"
    else
      match jstrCs fuel cs with
      | .ok (out, rest) => .ok (c :: out, rest)
      | .error er => .error er

/-- Maximal run of decimal digits at the head of the input. -/
def takeDigs : List Char → (List Char × List Char)
  | [] => ([], [])
  | c :: cs =>
    if c.isDigit then
      match takeDigs cs with
      | (d, r) => (c :: d, r)
    else ([], c :: cs)

/-- Numeric value of a run of decimal digits. -/
def natOfDigs (ds : List Char) : Nat :=
  ds.foldl (fun a c => a * 10 + (c.toNat - 48)) 0

/-- Decodes a JSON integer literal at the head of the input; fraction and
exponent parts are rejected (see the section comment). -/
def jnum (cs : List Char) : Except String (Int × List Char) :=
  let neg : Bool := match cs with | '-' :: _ => true | _ => false
  let cs1 := if neg then cs.drop 1 else cs
  match takeDigs cs1 with
  | ([], _) => .error "json: expecting value"
  | (d :: ds, rest) =>
    if d = '0' && !ds.isEmpty then .error "json: leading zero in number"
    else
      match rest with
      | '.' :: _ => .error "json model: float literal not modelled"
      | 'e' :: _ => .error "json model: float literal not modelled"
      | 'E' :: _ => .error "json model: float literal not modelled"
      | _ =>
        let v : Int := Int.ofNat (natOfDigs (d :: ds))
        .ok (if neg then -v else v, rest)

/-- Task of one step of the JSON decoder: parse one value, or continue an
array or object whose opening bracket was consumed. -/
inductive JTask where
  | val
  | arrStart
  | arrSep (acc : List JVal)
  | objStart
  | objSep (acc : List (String × JVal))

/-- Single-function JSON decoder (kept non-mutual so that it reduces inside
the kernel); `fuel` bounds the number of steps and only needs to be linear
in the input length. -/
def jstep : Nat → JTask → List Char → Except String (JVal × List Char)
  | 0, _, _ => .error "json model: fuel exhausted"
  | fuel + 1, task, cs =>
    match task with
    | .val =>
      match jSkipWs cs with
      | [] => .error "json: expecting value"
      | c :: rest =>
        if c = '"' then
          match jstrCs (rest.length + 1) rest with
          | .ok (out, rest2) => .ok (.str ⟨out⟩, rest2)
          | .error er => .error er
        else if c = lbrace then jstep fuel .objStart rest
        else if c = '[' then jstep fuel .arrStart rest
        else if ['t', 'r', 'u', 'e'].isPrefixOf (c :: rest) then
          .ok (.bool true, (c :: rest).drop 4)
        else if ['f', 'a', 'l', 's', 'e'].isPrefixOf (c :: rest) then
          .ok (.bool false, (c :: rest).drop 5)
        else if ['n', 'u', 'l', 'l'].isPrefixOf (c :: rest) then
          .ok (.null, (c :: rest).drop 4)
        else if c = '-' || c.isDigit then
          match jnum (c :: rest) with
          | .ok (n, rest2) => .ok (.num n, rest2)
          | .error er => .error er
        else .error "json: expecting value"
    | .arrStart =>
      match jSkipWs cs with
      | ']' :: rest => .ok (.arr [], rest)
      | cs1 =>
        match jstep fuel .val cs1 with
        | .ok (v, rest) => jstep fuel (.arrSep [v]) rest
        | .error er => .error er
    | .arrSep acc =>
      match jSkipWs cs with
      | ']' :: rest => .ok (.arr acc, rest)
      | ',' :: rest =>
        match jstep fuel .val rest with
        | .ok (v, rest2) => jstep fuel (.arrSep (acc ++ [v])) rest2
        | .error er => .error er
      | _ => .error "json: expecting comma or end of array"
    | .objStart =>
      match jSkipWs cs with
      | c :: rest =>
        if c = rbrace then .ok (.obj [], rest)
        else if c = '"' then
          match jstrCs (rest.length + 1) rest with
          | .ok (key, rest2) =>
            match jSkipWs rest2 with
            | ':' :: rest3 =>
              match jstep fuel .val rest3 with
              | .ok (v, rest4) => jstep fuel (.objSep [(⟨key⟩, v)]) rest4
              | .error er => .error er
            | _ => .error "json: expecting colon"
          | .error er => .error er
        else .error "json: expecting property name"
      | [] => .error "json: expecting property name"
    | .objSep acc =>
      match jSkipWs cs with
      | c :: rest =>
        if c = rbrace then .ok (.obj acc, rest)
        else if c = ',' then
          match jSkipWs rest with
          | '"' :: rest2 =>
            match jstrCs (rest2.length + 1) rest2 with
            | .ok (key, rest3) =>
              match jSkipWs rest3 with
              | ':' :: rest4 =>
                match jstep fuel .val rest4 with
                | .ok (v, rest5) => jstep fuel (.objSep (acc ++ [(⟨key⟩, v)])) rest5
                | .error er => .error er
              | _ => .error "json: expecting colon"
            | .error er => .error er
          | _ => .error "json: expecting property name"
        else .error "json: expecting comma or end of object"
      | [] => .error "json: expecting comma or end of object"

/-- Model of `json.loads`: decodes one JSON document and rejects trailing
content. -/
def json_loads (s : String) : Except String JVal :=
  match jstep (4 * s.data.length + 16) .val s.data with
  | .ok (v, rest) =>
    match jSkipWs rest with
    | [] => .ok v
    | _ => .error "json: extra data"
  | .error er => .error er

/-! ## Model of the date reparse

`datetime.strptime(x, '%Y. %m. %d.').strftime('%Y-%m-%d')` from the
platform-A item mapping.  CPython compiles the format to a regular
expression: `%Y` is exactly four digits, `%m` is `1[0-2]|0[1-9]|[1-9]`,
`%d` is `3[01]|[12]\d|0[1-9]|[1-9]| [1-9]`, literal whitespace in the
format becomes greedy `\s+`, the match must consume the whole input, and
the `datetime` constructor then validates the day against the month length
and rejects year 0.  The ` [1-9]` day alternative is unreachable after the
greedy `\s+` of this format and is not modelled.  `%Y` in the output is
modelled as zero-padded to four digits (platforms differ for years below
1000; every date this development evaluates has a four-digit year). -/

/-- Numeric value of a decimal digit character. -/
def digitVal (c : Char) : Nat := c.toNat - 48

/-- Matches exactly four decimal digits (the compiled `%Y` pattern). -/
def parse4Digits : List Char → Option (Nat × List Char)
  | a :: b :: c :: d :: rest =>
    if a.isDigit && b.isDigit && c.isDigit && d.isDigit then
      some (((digitVal a * 10 + digitVal b) * 10 + digitVal c) * 10 + digitVal d, rest)
    else none
  | _ => none

/-- Drops every leading `\s` character. -/
def skipWsAll : List Char → List Char
  | [] => []
  | c :: cs => if isWs c then skipWsAll cs else c :: cs

/-- Matches a literal dot followed by the greedy `\s+` that the format
fragment `. ` compiles to. -/
def expectDotWs : List Char → Option (List Char)
  | '.' :: c :: cs => if isWs c then some (skipWsAll cs) else none
  | _ => none

/-- Matches the compiled `%m` pattern `1[0-2]|0[1-9]|[1-9]` (alternatives
tried in order; when a two-digit alternative consumes its characters no
single-digit continuation can succeed, because the next format token is a
literal dot). -/
def parseMonth : List Char → Option (Nat × List Char)
  | '1' :: c :: rest =>
    if '0' ≤ c && c ≤ '2' then some (10 + digitVal c, rest)
    else some (1, c :: rest)
  | '0' :: c :: rest =>
    if '1' ≤ c && c ≤ '9' then some (digitVal c, rest) else none
  | c :: rest =>
    if '1' ≤ c && c ≤ '9' then some (digitVal c, rest) else none
  | [] => none

/-- Matches the compiled `%d` pattern `3[01]|[12]\d|0[1-9]|[1-9]`. -/
def parseDay : List Char → Option (Nat × List Char)
  | '3' :: c :: rest =>
    if c = '0' || c = '1' then some (30 + digitVal c, rest)
    else some (3, c :: rest)
  | '1' :: c :: rest =>
    if c.isDigit then some (10 + digitVal c, rest) else some (1, c :: rest)
  | '2' :: c :: rest =>
    if c.isDigit then some (20 + digitVal c, rest) else some (2, c :: rest)
  | '0' :: c :: rest =>
    if '1' ≤ c && c ≤ '9' then some (digitVal c, rest) else none
  | c :: rest =>
    if '1' ≤ c && c ≤ '9' then some (digitVal c, rest) else none
  | [] => none

/-- Matches the final literal dot with nothing after it (strptime rejects
unconverted trailing data). -/
def expectDotEnd : List Char → Bool
  | ['.'] => true
  | _ => false

/-- Gregorian leap-year rule used by `datetime`. -/
def isLeap (y : Nat) : Bool := (y % 4 = 0 && y % 100 != 0) || y % 400 = 0

/-- Length of a month as validated by the `datetime` constructor. -/
def daysInMonth (y m : Nat) : Nat :=
  if m = 2 then (if isLeap y then 29 else 28)
  else if m = 4 || m = 6 || m = 9 || m = 11 then 30
  else 31

/-- Model of `datetime.strptime(s, '%Y. %m. %d.')`, returning the parsed
and validated (year, month, day) or `none` for a `ValueError`. -/
def strptime_Ymd_dots (s : String) : Option (Nat × Nat × Nat) :=
  match parse4Digits s.data with
  | none => none
  | some (y, r1) =>
    match expectDotWs r1 with
    | none => none
    | some r2 =>
      match parseMonth r2 with
      | none => none
      | some (m, r3) =>
        match expectDotWs r3 with
        | none => none
        | some r4 =>
          match parseDay r4 with
          | none => none
          | some (d, r5) =>
            if expectDotEnd r5 then
              if 1 ≤ y && d ≤ daysInMonth y m then some (y, m, d) else none
            else none

/-- Two-digit zero-padded rendering (`%m`, `%d`). -/
def pad2 (n : Nat) : List Char := [Nat.digitChar (n / 10 % 10), Nat.digitChar (n % 10)]

/-- Four-digit zero-padded rendering (`%Y`, see the section comment). -/
def pad4 (n : Nat) : List Char :=
  [Nat.digitChar (n / 1000 % 10), Nat.digitChar (n / 100 % 10),
   Nat.digitChar (n / 10 % 10), Nat.digitChar (n % 10)]

/-- Model of `datetime(y, m, d).strftime('%Y-%m-%d')`. -/
def strftime_iso (y m d : Nat) : String :=
  ⟨pad4 y ++ '-' :: (pad2 m ++ '-' :: pad2 d)⟩

/-- Full model of the platform-A date reparse
`datetime.strptime(x, '%Y. %m. %d.').strftime('%Y-%m-%d')`; `none` models
the `ValueError` raised on a non-matching input. -/
def tistory_reparse (s : String) : Option String :=
  match strptime_Ymd_dots s with
  | some (y, m, d) => some (strftime_iso y m d)
  | none => none

/-! ## Models of the two `re.search` patterns -/

/-- Leading literal of the Tistory config pattern
`window\.T\.config\s*=\s*(\x7b[^;]+\x7d);`. -/
def wtcLit : List Char := "window.T.config".data

/-- Characters strictly before the first semicolon, or `none` when the
input has no semicolon. -/
def spanToSemi : List Char → Option (List Char)
  | [] => none
  | c :: cs =>
    if c = ';' then some []
    else
      match spanToSemi cs with
      | some seg => some (c :: seg)
      | none => none

/-- Continuation of the config pattern after its leading literal:
`\s*=\s*` then the capture group `\x7b[^;]+\x7d` followed by `;`.  The
greedy `[^;]+` with backtracking matches exactly when the characters
between the opening brace and the first following semicolon end in a
closing brace and are at least two long; the group is the brace-delimited
segment. -/
def configAfter (cs : List Char) : Option (List Char) :=
  match skipWsAll cs with
  | '=' :: cs2 =>
    match skipWsAll cs2 with
    | c :: cs3 =>
      if c = lbrace then
        match spanToSemi cs3 with
        | some seg =>
          if 2 ≤ seg.length && seg.getLast? = some rbrace then some (lbrace :: seg)
          else none
        | none => none
      else none
    | [] => none
  | _ => none

/-- Left-to-right scan of `re.search` for the config pattern: the first
position where the whole pattern matches yields the capture group. -/
def configScan : List Char → Option (List Char)
  | [] => none
  | c :: cs =>
    match (if wtcLit.isPrefixOf (c :: cs) then configAfter ((c :: cs).drop wtcLit.length) else none) with
    | some g => some g
    | none => configScan cs

/-- Model of `re.search(r'window\.T\.config\s*=\s*(\x7b[^;]+\x7d);', content)`,
returning group 1. -/
def configSearch (content : String) : Option String :=
  match configScan content.data with
  | some g => some ⟨g⟩
  | none => none

/-- Leading literal of the velog pattern `https://velog\.io/(@[^/]+)`. -/
def velogLit : List Char := "https://velog.io/".data

/-- Continuation of the velog pattern after its leading literal: the
capture group `@[^/]+` (an at sign and at least one following
non-slash character, matched greedily). -/
def velogAt (cs : List Char) : Option (List Char) :=
  match cs with
  | a :: cs2 =>
    if a = '@' then
      match cs2.takeWhile (fun c => c != '/') with
      | [] => none
      | run => some ('@' :: run)
    else none
  | [] => none

/-- Left-to-right scan of `re.search` for the velog pattern. -/
def velogScan : List Char → Option (List Char)
  | [] => none
  | c :: cs =>
    match (if velogLit.isPrefixOf (c :: cs) then velogAt ((c :: cs).drop velogLit.length) else none) with
    | some g => some g
    | none => velogScan cs

/-- Model of `re.search(r'https://velog\.io/(@[^/]+)', url)`, returning
group 1. -/
def velogMatch (url : String) : Option String :=
  match velogScan url.data with
  | some g => some ⟨g⟩
  | none => none

/-! ## Crawl-state data model -/

/-- Normalized post record appended by `get_posts` (the Python dict literal
with keys id, title, url, created_at, thumbnail, summary); every field
holds the parsed-JSON value the code stores there. -/
structure Post where
  id : JVal
  title : JVal
  url : JVal
  created_at : JVal
  thumbnail : JVal
  summary : JVal

/-- Crawl-state dictionary built by `get_site_info` and threaded through
`get_posts`.  An `Option` field models presence of the dictionary key:
the error dictionaries carry only `status` and `message`, and the
degenerate velog success carries only `status`, `message` and `type`. -/
structure SiteInfo where
  status : Option String
  message : Option String
  type : Option String
  name : Option JVal
  id : Option JVal
  p_url : Option String
  p_page : Option JVal
  posts : Option (List Post)

/-- Literal marker identifying a Tistory page body. -/
def tistoryMarker : String := "\"TOP_SSL_URL\":\"https://www.tistory.com\""

/-- Page-template URL built for a Tistory blog (f-string over the config
name, with the `#page` placeholder and page size fixed at 20). -/
def tistoryPageUrl (nm : JVal) : String :=
  "https://" ++ pystr nm ++ ".tistory.com/m/api/entry/0/POST?page=#page&size=20"

/-- GraphQL request-body template built for a velog blog, transcribed
verbatim from the source (placeholders `#cursor` and `#id`). -/
def velogQueryTemplate : String := "\x7b\"query\":\"\\n    query velogPosts($input: GetPostsInput!) \x7b\\n  posts(input: $input) \x7b\\n    id\\n    title\\n    short_description\\n    thumbnail\\n    user \x7b\\n      id\\n      username\\n      profile \x7b\\n        id\\n        thumbnail\\n        display_name\\n      \x7d\\n    \x7d\\n    url_slug\\n    released_at\\n    updated_at\\n    comments_count\\n    tags\\n    is_private\\n    likes\\n  \x7d\\n\x7d\\n    \",\"variables\":\x7b\"input\":\x7b\"cursor\":\"#cursor\",\"username\":\"#id\",\"limit\":100,\"tag\":\"\"\x7d\x7d\x7d"

/-- Result dictionary for an empty `url` argument. -/
def urlMissingInfo : SiteInfo :=
  ⟨some "error", some "URL이 없습니다.", none, none, none, none, none, none⟩

/-- Result dictionary for every lookup failure
(`블로그 조회에 실패했습니다.`). -/
def lookupFailedInfo : SiteInfo :=
  ⟨some "error", some "블로그 조회에 실패했습니다.", none, none, none, none, none, none⟩

/-- Successful Tistory classification (config `name` and `id`, integer
page cursor 0, empty posts). -/
def tistoryInfo (nm bid : JVal) : SiteInfo :=
  ⟨some "success", some "블로그 조회에 성공 하였습니다.", some "tistory", some nm, some bid,
   some (tistoryPageUrl nm), some (.num 0), some []⟩

/-- Successful velog classification (handle as both name and id, string
cursor `""`, empty posts). -/
def velogInfo (uid : String) : SiteInfo :=
  ⟨some "success", some "블로그 조회에 성공 하였습니다.", some "velog", some (.str uid), some (.str uid),
   some velogQueryTemplate, some (.str ""), some []⟩

/-- Degenerate velog success (empty extracted handle): platform tag only. -/
def velogBareInfo : SiteInfo :=
  ⟨some "success", some "블로그 조회에 성공 하였습니다.", some "velog", none, none, none, none, none⟩

/-! ## Embedding of `get_site_info` -/

/-- Body of the `try` block of `get_site_info` (src/main.py lines
161-194): `res` is the stubbed result of `requests.get(url)` delivering
`response.text`, and an `Except.error` result models an exception
escaping the block. -/
def get_site_info_core (res : Except String String) (url : String) : Except String SiteInfo :=
  match res with
  | .error e => .error e
  | .ok content =>
    if containsStr content tistoryMarker then
      match configSearch content with
      | some cfgStr =>
        match json_loads cfgStr with
        | .error e => .error e
        | .ok cfg =>
          match pyIndex cfg "BLOG" with
          | .error e => .error e
          | .ok blog =>
            match pyIndex blog "name" with
            | .error e => .error e
            | .ok nm =>
              match pyIndex blog "id" with
              | .error e => .error e
              | .ok bid => .ok (tistoryInfo nm bid)
      | none => .ok lookupFailedInfo
    else if containsStr url "velog.io/@" then
      match velogMatch url with
      | none => .error "AttributeError: NoneType object has no attribute group"
      | some g1 =>
        let uid : String := ⟨g1.data.drop 1⟩
        if uid = "" then .ok velogBareInfo else .ok (velogInfo uid)
    else .ok lookupFailedInfo

/-- Embedding of `get_site_info` (src/main.py lines 156-196).  The
function is total: the empty-url guard runs before the `try` block, and
every exception inside the block is caught and mapped to the lookup-failed
dictionary. -/
def get_site_info (res : Except String String) (url : String) : SiteInfo :=
  if url = "" then urlMissingInfo
  else
    match get_site_info_core res url with
    | .ok s => s
    | .error _ => lookupFailedInfo

/-! ## Embedding of `get_posts`

`get_posts` (src/main.py lines 199-238) issues one HTTP request per page
and recurses.  The network is stubbed by a list of fetch results consumed
one per request, and alongside the final state the embedding returns the
trace of request targets actually issued (the substituted page URL for
platform A, the substituted GraphQL payload for platform B), so that
theorems can speak about how many fetches happened and with which cursor.
An `Except.error` result models an exception propagating to the caller —
`get_posts` has no exception handler. -/

/-- Platform-A item mapping (the dict literal at lines 205-212), with the
field accesses and the date reparse evaluated in source order; a `none`
from `tistory_reparse` is the `ValueError` of `strptime`. -/
def tistory_item (row : JVal) : Except String Post :=
  match pyIndex row "id" with
  | .error e => .error e
  | .ok rid =>
    match pyIndex row "title" with
    | .error e => .error e
    | .ok title =>
      match pyIndex row "url" with
      | .error e => .error e
      | .ok u1 =>
        match pyIndex row "subPath" with
        | .error e => .error e
        | .ok u2 =>
          match pyAdd u1 u2 with
          | .error e => .error e
          | .ok u =>
            match pyIndex row "published" with
            | .error e => .error e
            | .ok pub =>
              match asStr pub with
              | .error e => .error e
              | .ok pubs =>
                match tistory_reparse pubs with
                | none => .error "ValueError: time data does not match format"
                | some iso =>
                  match pyIndex row "thumbnail" with
                  | .error e => .error e
                  | .ok th =>
                    match pyIndex row "summary" with
                    | .error e => .error e
                    | .ok sm => .ok ⟨rid, title, u, .str iso, th, sm⟩

/-- Platform-A loop body over `response["data"]["items"]`: each mapped item
is appended to `site_info['posts']` (a missing `posts` key is only touched
— and only raises — when at least one item exists). -/
def tistory_rows : List JVal → SiteInfo → Except String SiteInfo
  | [], s => .ok s
  | row :: rest, s =>
    match tistory_item row with
    | .error e => .error e
    | .ok item =>
      match s.posts with
      | none => .error "KeyError: posts"
      | some ps => tistory_rows rest { s with posts := some (ps ++ [item]) }

/-- Platform-B item mapping (the dict literal at lines 224-231); the `url`
field is the f-string `https://velog.io/@<id>/<url_slug>` and
`created_at` is `released_at` taken verbatim. -/
def velog_item (uid : String) (row : JVal) : Except String Post :=
  match pyIndex row "id" with
  | .error e => .error e
  | .ok rid =>
    match pyIndex row "title" with
    | .error e => .error e
    | .ok title =>
      match pyIndex row "url_slug" with
      | .error e => .error e
      | .ok slug =>
        match pyIndex row "released_at" with
        | .error e => .error e
        | .ok rel =>
          match pyIndex row "thumbnail" with
          | .error e => .error e
          | .ok th =>
            match pyIndex row "short_description" with
            | .error e => .error e
            | .ok sd =>
              .ok ⟨rid, title, .str ("https://velog.io/@" ++ uid ++ "/" ++ pystr slug), rel, th, sd⟩

/-- Platform-B loop body over `response['data']['posts']`: per row the item
is built, `site_info['p_page']` is set to the row id, and the item is
appended. -/
def velog_rows (uid : String) : List JVal → SiteInfo → Except String SiteInfo
  | [], s => .ok s
  | row :: rest, s =>
    match velog_item uid row with
    | .error e => .error e
    | .ok item =>
      match pyIndex row "id" with
      | .error e => .error e
      | .ok rid =>
        match s.posts with
        | none => .error "KeyError: posts"
        | some ps =>
          velog_rows uid rest { s with p_page := some rid, posts := some (ps ++ [item]) }

/-- Pre-fetch phase of one `get_posts` call: the branch dispatch on
`site_info['type']` and the construction of the request target, with the
key reads and `str.replace` argument checks in source evaluation order. -/
inductive Dispatch where
  | noop
  | raise (e : String)
  | tReq (url : String) (page : JVal)
  | vReq (payload : String) (uid : String)

/-- Computes the `Dispatch` of a state: `noop` exactly when the `type` key
is present and neither `tistory` nor `velog` (the function then falls
through to `return site_info`). -/
def get_posts_dispatch (s : SiteInfo) : Dispatch :=
  match s.type with
  | none => .raise "KeyError: type"
  | some t =>
    if t = "tistory" then
      match s.p_page with
      | none => .raise "KeyError: p_page"
      | some page =>
        match s.p_url with
        | none => .raise "KeyError: p_url"
        | some pu => .tReq (pyReplace pu "#page" (pystr page)) page
    else if t = "velog" then
      match s.p_url with
      | none => .raise "KeyError: p_url"
      | some pu =>
        match s.p_page with
        | none => .raise "KeyError: p_page"
        | some pp =>
          match pp with
          | .str cur =>
            match s.id with
            | none => .raise "KeyError: id"
            | some (.str uid) => .vReq (pyReplace (pyReplace pu "#cursor" cur) "#id" uid) uid
            | some _ => .raise "TypeError: replace argument 2 must be str"
          | _ => .raise "TypeError: replace argument 2 must be str"
    else .noop

/-- Result of processing one fetched page: stop with the final state, or
recurse on an updated state, or raise. -/
inductive StepRes where
  | done (s1 : SiteInfo)
  | again (s1 : SiteInfo)
  | raise (e : String)

/-- Processing of one platform-A response body (lines 203-216): decode the
body, read `data.items`, map and append every item, then recurse with the
page cursor incremented by one exactly when `data.nextPage` is not null.
Iterating a non-list `items` is modelled as an error (Python would iterate
the keys of a dict or the characters of a string; no such upstream shape
is exercised here). -/
def tistory_step (page : JVal) (body : String) (s : SiteInfo) : StepRes :=
  match json_loads body with
  | .error e => .raise e
  | .ok resp =>
    match pyIndex resp "data" with
    | .error e => .raise e
    | .ok data =>
      match pyIndex data "items" with
      | .error e => .raise e
      | .ok (.arr rows) =>
        match tistory_rows rows s with
        | .error e => .raise e
        | .ok s1 =>
          match pyIndex data "nextPage" with
          | .error e => .raise e
          | .ok .null => .done s1
          | .ok _ =>
            match page with
            | .num n => .again { s1 with p_page := some (.num (n + 1)) }
            | _ => .raise "TypeError: unsupported operand types for +"
      | .ok _ => .raise "TypeError: items value is not iterable"

/-- Processing of one platform-B response body (lines 221-236): decode the
body, read `data.posts`, map and append every row while moving the cursor
to the row id, then recurse exactly when the row list was non-empty. -/
def velog_step (uid : String) (body : String) (s : SiteInfo) : StepRes :=
  match json_loads body with
  | .error e => .raise e
  | .ok resp =>
    match pyIndex resp "data" with
    | .error e => .raise e
    | .ok data =>
      match pyIndex data "posts" with
      | .error e => .raise e
      | .ok (.arr rows) =>
        match velog_rows uid rows s with
        | .error e => .raise e
        | .ok s1 => if rows.isEmpty then .done s1 else .again s1
      | .ok _ => .raise "TypeError: posts value is not iterable"

/-- Embedding of `get_posts` (src/main.py lines 199-238) against a stub
list of fetch results.  On a normal return it yields the final state and
the trace of issued request targets, one per consumed stub entry; an
`Except.error` models an uncaught Python exception. -/
def get_posts : List (Except String String) → SiteInfo → Except String (SiteInfo × List String)
  | [], s =>
    match get_posts_dispatch s with
    | .noop => .ok (s, [])
    | .raise e => .error e
    | .tReq _ _ => .error "model: request issued with no stubbed response"
    | .vReq _ _ => .error "model: request issued with no stubbed response"
  | r :: rest, s =>
    match get_posts_dispatch s with
    | .noop => .ok (s, [])
    | .raise e => .error e
    | .tReq url page =>
      match r with
      | .error e => .error e
      | .ok body =>
        match tistory_step page body s with
        | .raise e => .error e
        | .done s1 => .ok (s1, [url])
        | .again s1 =>
          match get_posts rest s1 with
          | .ok (s2, tr) => .ok (s2, url :: tr)
          | .error e => .error e
    | .vReq payload uid =>
      match r with
      | .error e => .error e
      | .ok body =>
        match velog_step uid body s with
        | .raise e => .error e
        | .done s1 => .ok (s1, [payload])
        | .again s1 =>
          match get_posts rest s1 with
          | .ok (s2, tr) => .ok (s2, payload :: tr)
          | .error e => .error e

/-! ## Embedding of `get_meta_tags`

`get_meta_tags` (src/main.py lines 73-98) fetches a page, calls
`response.raise_for_status()`, parses the HTML with BeautifulSoup and reads
four meta tags.  The fetch-and-parse collaborators are abstracted by a
single stub result carrying the HTTP status code and the sequence of meta
tags of the parsed document (BeautifulSoup html.parser is best-effort and
does not itself raise): an `Except.error` models a network exception.
`raise_for_status` raises exactly for status codes in [400, 600). -/

/-- Attribute set of one `meta` tag of the parsed document. -/
structure MetaTag where
  attrs : List (String × String)

/-- Attribute lookup on a tag (first binding, as the HTML parser keeps the
first of duplicate attributes). -/
def tag_attr (t : MetaTag) (k : String) : Option String :=
  t.attrs.lookup k

/-- Model of `soup.find('meta', \x7bk: v\x7d)`: the first meta tag whose
attribute `k` equals `v`. -/
def soup_find_meta (tags : List MetaTag) (k v : String) : Option MetaTag :=
  tags.find? (fun t => tag_attr t k == some v)

/-- Result record of `get_meta_tags`; each field is independently nullable
(`tag['content'] if tag else None`). -/
structure MetaInfo where
  description : Option String
  og_title : Option String
  og_image : Option String
  og_url : Option String
  deriving DecidableEq

/-- Evaluation of `tag['content'] if tag else None`: an absent tag yields
`None`, a present tag without a `content` attribute raises `KeyError`. -/
def meta_content (t : Option MetaTag) : Except String (Option String) :=
  match t with
  | none => .ok none
  | some tag =>
    match tag_attr tag "content" with
    | some c => .ok (some c)
    | none => .error "KeyError: content"

/-- Embedding of `get_meta_tags`: total, returning `none` whenever any step
inside the `try` block raises. -/
def get_meta_tags (res : Except String (Int × List MetaTag)) : Option MetaInfo :=
  match res with
  | .error _ => none
  | .ok (status, tags) =>
    if 400 ≤ status ∧ status < 600 then none
    else
      match meta_content (soup_find_meta tags "name" "description") with
      | .error _ => none
      | .ok d =>
        match meta_content (soup_find_meta tags "property" "og:title") with
        | .error _ => none
        | .ok t =>
          match meta_content (soup_find_meta tags "property" "og:image") with
          | .error _ => none
          | .ok im =>
            match meta_content (soup_find_meta tags "property" "og:url") with
            | .error _ => none
            | .ok u => some ⟨d, t, im, u⟩

/-! ## Concrete scenario data -/

/-- Initial platform-A state for a blog whose config declared
`name="abc"`, `id=123`. -/
def tistoryAbc : SiteInfo := tistoryInfo (.str "abc") (.num 123)

/-- Stubbed platform-B response: three posts. -/
def velogPage3Body : String :=
  "\x7b\"data\":\x7b\"posts\":[\x7b\"id\":\"id1\",\"title\":\"t1\",\"url_slug\":\"s1\",\"released_at\":\"2024-01-01\",\"thumbnail\":null,\"short_description\":\"d1\"\x7d,\x7b\"id\":\"id2\",\"title\":\"t2\",\"url_slug\":\"s2\",\"released_at\":\"2024-01-02\",\"thumbnail\":null,\"short_description\":\"d2\"\x7d,\x7b\"id\":\"id3\",\"title\":\"t3\",\"url_slug\":\"s3\",\"released_at\":\"2024-01-03\",\"thumbnail\":null,\"short_description\":\"d3\"\x7d]\x7d\x7d"

/-- Stubbed platform-B response: zero posts (end of pagination). -/
def velogPage0Body : String := "\x7b\"data\":\x7b\"posts\":[]\x7d\x7d"

/-- Stubbed platform-A response for page 0: two items, `nextPage = 1`. -/
def tistoryPage0Body : String :=
  "\x7b\"data\":\x7b\"items\":[\x7b\"id\":1,\"title\":\"t1\",\"url\":\"https://abc.tistory.com\",\"subPath\":\"/1\",\"published\":\"2023. 01. 05.\",\"thumbnail\":null,\"summary\":\"s1\"\x7d,\x7b\"id\":2,\"title\":\"t2\",\"url\":\"https://abc.tistory.com\",\"subPath\":\"/2\",\"published\":\"2023. 02. 11.\",\"thumbnail\":\"th2\",\"summary\":\"s2\"\x7d],\"nextPage\":1\x7d\x7d"

/-- Stubbed platform-A response for page 1: no items, `nextPage = null`. -/
def tistoryPage1Body : String :=
  "\x7b\"data\":\x7b\"items\":[],\"nextPage\":null\x7d\x7d"

/-- Stubbed platform-A response whose single item has a published date not
in the `%Y. %m. %d.` format. -/
def tistoryBadDateBody : String :=
  "\x7b\"data\":\x7b\"items\":[\x7b\"id\":1,\"title\":\"t\",\"url\":\"u\",\"subPath\":\"/p\",\"published\":\"2023-01-05\",\"thumbnail\":null,\"summary\":null\x7d],\"nextPage\":null\x7d\x7d"

/-- State whose `type` key holds a value that is neither `tistory` nor
`velog`. -/
def unknownTypeState : SiteInfo :=
  ⟨some "error", some "블로그 조회에 실패했습니다.", some "unknown", none, none, none, none, none⟩

/-! ## Theorems for the claims -/

/-- Definitional unfolding of `get_posts` on an exhausted stub list. -/
theorem get_posts_nil (s : SiteInfo) :
    get_posts [] s =
      match get_posts_dispatch s with
      | .noop => .ok (s, [])
      | .raise e => .error e
      | .tReq _ _ => .error "model: request issued with no stubbed response"
      | .vReq _ _ => .error "model: request issued with no stubbed response" := rfl

/-- Definitional unfolding of `get_posts` on a stub list with a first
entry. -/
theorem get_posts_cons (r : Except String String)
    (rest : List (Except String String)) (s : SiteInfo) :
    get_posts (r :: rest) s =
      match get_posts_dispatch s with
      | .noop => .ok (s, [])
      | .raise e => .error e
      | .tReq url page =>
        match r with
        | .error e => .error e
        | .ok body =>
          match tistory_step page body s with
          | .raise e => .error e
          | .done s1 => .ok (s1, [url])
          | .again s1 =>
            match get_posts rest s1 with
            | .ok (s2, tr) => .ok (s2, url :: tr)
            | .error e => .error e
      | .vReq payload uid =>
        match r with
        | .error e => .error e
        | .ok body =>
          match velog_step uid body s with
          | .raise e => .error e
          | .done s1 => .ok (s1, [payload])
          | .again s1 =>
            match get_posts rest s1 with
            | .ok (s2, tr) => .ok (s2, payload :: tr)
            | .error e => .error e := rfl

/-- C1: platform-B pagination follows the cursor-by-last-id protocol.  On
the stub returning three posts for the first call (initial cursor `""`)
and zero posts for the second, `get_posts` issues exactly two requests —
the trace has exactly the two substituted payloads, the second carrying
cursor `id3`, the id of the last post of page one — finishes with the page
cursor equal to `id3`, and returns the three posts in original order with
`url = "https://velog.io/@alice/<slug>"`. -/
theorem C1_velog_cursor_pagination :
    get_posts [.ok velogPage3Body, .ok velogPage0Body] (velogInfo "alice") =
      .ok ({ velogInfo "alice" with
              p_page := some (.str "id3"),
              posts := some
                [⟨.str "id1", .str "t1", .str "https://velog.io/@alice/s1", .str "2024-01-01", .null, .str "d1"⟩,
                 ⟨.str "id2", .str "t2", .str "https://velog.io/@alice/s2", .str "2024-01-02", .null, .str "d2"⟩,
                 ⟨.str "id3", .str "t3", .str "https://velog.io/@alice/s3", .str "2024-01-03", .null, .str "d3"⟩] },
            [pyReplace (pyReplace velogQueryTemplate "#cursor" "") "#id" "alice",
             pyReplace (pyReplace velogQueryTemplate "#cursor" "id3") "#id" "alice"]) := rfl

/-- C2: platform-A pagination follows the nextPage protocol.  On the stub
whose first page carries two items and `nextPage = 1` and whose second
page carries no items and `nextPage = null`, `get_posts` issues exactly
two requests (pages 0 and 1), increments the integer cursor by exactly
one, and returns exactly the first page's items. -/
theorem C2_tistory_next_page_pagination :
    get_posts [.ok tistoryPage0Body, .ok tistoryPage1Body] tistoryAbc =
      .ok ({ tistoryAbc with
              p_page := some (.num 1),
              posts := some
                [⟨.num 1, .str "t1", .str "https://abc.tistory.com/1", .str "2023-01-05", .null, .str "s1"⟩,
                 ⟨.num 2, .str "t2", .str "https://abc.tistory.com/2", .str "2023-02-11", .str "th2", .str "s2"⟩] },
            ["https://abc.tistory.com/m/api/entry/0/POST?page=0&size=20",
             "https://abc.tistory.com/m/api/entry/0/POST?page=1&size=20"]) := rfl

/-- C3 counterexample: on the exact error dictionary `get_site_info`
produces (status `error`, no `type` key), `get_posts` raises `KeyError`
instead of returning the input unmodified — the claim that an error-status
input is returned unchanged without an exception is false. -/
theorem C3_counterexample_error_state_raises :
    lookupFailedInfo.status = some "error" ∧
    get_posts [] lookupFailedInfo = .error "KeyError: type" ∧
    isErr (get_posts [] lookupFailedInfo) = true :=
  ⟨rfl, rfl, rfl⟩

/-- C3 as amended: `get_posts` dispatches only on the `type` key and never
reads `status`.  For every state whose `type` key is present and is
neither `tistory` nor `velog`, it returns the input unmodified with no
request issued and no exception; a state lacking the `type` key (such as
the error dictionaries of `get_site_info`) instead raises `KeyError`. -/
theorem C3_amended_unknown_type_identity (stub : List (Except String String))
    (s : SiteInfo) (t : String) (htype : s.type = some t)
    (ht : t ≠ "tistory") (hv : t ≠ "velog") :
    get_posts stub s = .ok (s, []) := by
  have hd : get_posts_dispatch s = .noop := by
    unfold get_posts_dispatch
    rw [htype]
    simp [ht, hv]
  cases stub with
  | nil => rw [get_posts_nil, hd]
  | cons r rest => rw [get_posts_cons, hd]

/-- C3 witness: the amended theorem applied to a concrete state with
`type = "unknown"`. -/
theorem C3_amended_witness :
    unknownTypeState.type = some "unknown" ∧
    get_posts [] unknownTypeState = .ok (unknownTypeState, []) :=
  ⟨rfl, C3_amended_unknown_type_identity [] unknownTypeState "unknown" rfl
    (by decide) (by decide)⟩

/-- C10: `get_posts` has no exception handler.  Concrete upstream
responses that are not valid JSON, that lack `data.items` / `data.posts`,
or whose platform-A item carries a published date not matching
`%Y. %m. %d.` all make `get_posts` raise to its caller instead of
returning an error-status state. -/
theorem C10_get_posts_raises :
    isErr (get_posts [.ok "not valid json"] tistoryAbc) = true ∧
    isErr (get_posts [.ok "\x7b\"data\":\x7b\x7d\x7d"] tistoryAbc) = true ∧
    isErr (get_posts [.ok "\x7b\"data\":\x7b\x7d\x7d"] (velogInfo "alice")) = true ∧
    isErr (get_posts [.ok tistoryBadDateBody] tistoryAbc) = true :=
  ⟨rfl, rfl, rfl, rfl⟩

/-- Meta-tag list of a page carrying description, og:title and og:url but
no og:image. -/
def metaTagsNoImage : List MetaTag :=
  [⟨[("name", "description"), ("content", "a description")]⟩,
   ⟨[("property", "og:title"), ("content", "a title")]⟩,
   ⟨[("property", "og:url"), ("content", "https://x.example/p")]⟩]

/-- Page body that carries the Tistory marker and a config assignment
whose braced segment is not valid JSON. -/
def tistoryBadConfigBody : String :=
  "<script>window.T.config = \x7boops\x7d;</script>\"TOP_SSL_URL\":\"https://www.tistory.com\""

/-- Tistory page body for the C6 witness: marker plus a well-formed
embedded config with BLOG name `abc` and id 123. -/
def c6DetectBody : String :=
  "<html>\"TOP_SSL_URL\":\"https://www.tistory.com\"<script>window.T.config = \x7b\"BLOG\":\x7b\"name\":\"abc\",\"id\":123\x7d\x7d;</script></html>"

/-- Embedded config captured from `c6DetectBody`. -/
def c6ConfigText : String := "\x7b\"BLOG\":\x7b\"name\":\"abc\",\"id\":123\x7d\x7d"

/-- Parsed form of `c6ConfigText`. -/
def c6Config : JVal := .obj [("BLOG", .obj [("name", .str "abc"), ("id", .num 123)])]

/-- Parsed BLOG object of `c6Config`. -/
def c6Blog : JVal := .obj [("name", .str "abc"), ("id", .num 123)]

/-- C7 counterexample: `raise_for_status` raises only for status codes in
[400, 600), so a 304 response — which is not 2xx — does not count as a
failure: `get_meta_tags` returns a populated (all-null) MetaInfo instead
of `null`, refuting the claim that any non-2xx status yields `null`. -/
theorem C7_counterexample_status_304 :
    get_meta_tags (.ok (304, [])) = some ⟨none, none, none, none⟩ ∧
    get_meta_tags (.ok (304, [])) ≠ none :=
  ⟨rfl, fun h => Option.noConfusion h⟩

/-- C7 as amended: `get_meta_tags` returns `null` on any fetch error and
on any HTTP status in [400, 600) (4xx/5xx — statuses below 400 do not
raise); on success each metadata field is independently nullable, and on a
page lacking an `og:image` tag the result has `og_image = null` while the
tags that are present yield their populated fields. -/
theorem C7_amended_meta_tags (r : Except String (Int × List MetaTag)) :
    (isErr r = true → get_meta_tags r = none) ∧
    (∀ st tags, r = .ok (st, tags) → 400 ≤ st → st < 600 → get_meta_tags r = none) ∧
    get_meta_tags (.ok (200, metaTagsNoImage)) =
      some ⟨some "a description", some "a title", none, some "https://x.example/p"⟩ := by
  refine ⟨?_, ?_, rfl⟩
  · intro h
    cases r with
    | error e => rfl
    | ok p => simp [isErr] at h
  · intro st tags hr h4 h6
    subst hr
    unfold get_meta_tags
    dsimp only
    rw [if_pos ⟨h4, h6⟩]

/-- C7 witness: the amended theorem applied to a concrete failed fetch. -/
theorem C7_amended_witness :
    isErr (Except.error "connection refused" : Except String (Int × List MetaTag)) = true ∧
    get_meta_tags (.error "connection refused") = none :=
  ⟨rfl, (C7_amended_meta_tags (.error "connection refused")).1 rfl⟩

/-- Status discipline of the `try` block of `get_site_info`: every normal
return carries a literal `success` or `error` status. -/
theorem get_site_info_core_status (res : Except String String) (url : String)
    (s : SiteInfo) (h : get_site_info_core res url = .ok s) :
    s.status = some "error" ∨ s.status = some "success" := by
  unfold get_site_info_core at h
  rcases res with e | content
  · cases h
  · dsimp only at h
    split at h
    · -- Tistory marker present
      split at h
      · -- config pattern matched
        split at h
        · cases h
        · split at h
          · cases h
          · split at h
            · cases h
            · split at h
              · cases h
              · cases h
                right
                rfl
      · cases h
        left
        rfl
    · split at h
      · split at h
        · cases h
        · split at h
          · cases h
            right
            rfl
          · cases h
            right
            rfl
      · cases h
        left
        rfl

/-- C4: `get_site_info` is total.  It never propagates an exception: for
every non-empty url a failing fetch yields the lookup-failed error
dictionary, every result carries a `success` or `error` status, and a
concrete page whose embedded config fails to parse as JSON also yields the
lookup-failed dictionary. -/
theorem C4_get_site_info_total :
    (∀ (url e : String), url ≠ "" →
        get_site_info (.error e) url = lookupFailedInfo) ∧
    (∀ (res : Except String String) (url : String),
        (get_site_info res url).status = some "error" ∨
        (get_site_info res url).status = some "success") ∧
    get_site_info (.ok tistoryBadConfigBody) "http://t.example" = lookupFailedInfo := by
  refine ⟨?_, ?_, rfl⟩
  · intro url e hurl
    unfold get_site_info get_site_info_core
    rw [if_neg hurl]
  · intro res url
    unfold get_site_info
    split
    · left
      rfl
    · rcases hc : get_site_info_core res url with e | s
      · left
        rfl
      · dsimp only
        exact get_site_info_core_status res url s hc

/-- C4 witness: the first component applied at a concrete url and network
error. -/
theorem C4_witness :
    ("http://x.example" : String) ≠ "" ∧
    get_site_info (.error "timeout") "http://x.example" = lookupFailedInfo :=
  ⟨by decide, C4_get_site_info_total.1 "http://x.example" "timeout" (by decide)⟩

/-- C6: for every non-empty url whose fetched body carries the Tistory
marker and whose captured config parses as JSON with `BLOG.name = "abc"`
and some `BLOG.id`, `get_site_info` returns status `success`, platform
`tistory`, blog name `abc`, the blog id, the page-template URL with the
`#page` placeholder and page size fixed at 20, integer page cursor 0 and
an empty posts list. -/
theorem C6_tistory_detection (url content cfgStr : String) (cfg blog bid : JVal)
    (hurl : url ≠ "")
    (hmark : containsStr content tistoryMarker = true)
    (hcfg : configSearch content = some cfgStr)
    (hjson : json_loads cfgStr = .ok cfg)
    (hblog : pyIndex cfg "BLOG" = .ok blog)
    (hname : pyIndex blog "name" = .ok (.str "abc"))
    (hid : pyIndex blog "id" = .ok bid) :
    get_site_info (.ok content) url =
      ⟨some "success", some "블로그 조회에 성공 하였습니다.", some "tistory",
       some (.str "abc"), some bid,
       some "https://abc.tistory.com/m/api/entry/0/POST?page=#page&size=20",
       some (.num 0), some []⟩ := by
  have hcore : get_site_info_core (.ok content) url = .ok (tistoryInfo (.str "abc") bid) := by
    unfold get_site_info_core
    simp only [hmark, if_true, hcfg, hjson, hblog, hname, hid]
  unfold get_site_info
  rw [if_neg hurl, hcore]
  rfl

/-- C6 witness: the theorem applied to a concrete page body, evaluating
the marker test, the config capture and the JSON decoding. -/
theorem C6_witness :
    containsStr c6DetectBody tistoryMarker = true ∧
    configSearch c6DetectBody = some c6ConfigText ∧
    json_loads c6ConfigText = .ok c6Config ∧
    get_site_info (.ok c6DetectBody) "http://blog.example" =
      ⟨some "success", some "블로그 조회에 성공 하였습니다.", some "tistory",
       some (.str "abc"), some (.num 123),
       some "https://abc.tistory.com/m/api/entry/0/POST?page=#page&size=20",
       some (.num 0), some []⟩ :=
  ⟨rfl, rfl, rfl,
   C6_tistory_detection "http://blog.example" c6DetectBody c6ConfigText c6Config c6Blog
     (.num 123) (by decide) rfl rfl rfl rfl rfl rfl⟩

/-- Digit characters are digits. -/
theorem digitChar_isDigit (k : Nat) (h : k ≤ 9) : (Nat.digitChar k).isDigit = true := by
  interval_cases k <;> decide

/-- Round trip of a digit value through its character. -/
theorem digitVal_digitChar (k : Nat) (h : k ≤ 9) : digitVal (Nat.digitChar k) = k := by
  interval_cases k <;> decide

/-- Digit characters are not whitespace, so the greedy `\s+` scan stops at
them. -/
theorem skipWsAll_digitChar (k : Nat) (h : k ≤ 9) (cs : List Char) :
    skipWsAll (Nat.digitChar k :: cs) = Nat.digitChar k :: cs := by
  interval_cases k <;> rfl

/-- The four-digit `%Y` pattern recovers the year from its zero-padded
rendering. -/
theorem parse4Digits_pad4 (y : Nat) (hy : y ≤ 9999) (rest : List Char) :
    parse4Digits (pad4 y ++ rest) = some (y, rest) := by
  have h1 : y / 1000 % 10 ≤ 9 := by omega
  have h2 : y / 100 % 10 ≤ 9 := by omega
  have h3 : y / 10 % 10 ≤ 9 := by omega
  have h4 : y % 10 ≤ 9 := by omega
  simp only [pad4, List.cons_append, List.nil_append, parse4Digits,
    digitChar_isDigit _ h1, digitChar_isDigit _ h2, digitChar_isDigit _ h3,
    digitChar_isDigit _ h4, digitVal_digitChar _ h1, digitVal_digitChar _ h2,
    digitVal_digitChar _ h3, digitVal_digitChar _ h4, Bool.and_self, if_true]
  have hv : ((y / 1000 % 10 * 10 + y / 100 % 10) * 10 + y / 10 % 10) * 10 + y % 10 = y := by
    omega
  rw [hv]

/-- The `%m` pattern recovers the month from its zero-padded rendering. -/
theorem parseMonth_pad2 (m : Nat) (h1 : 1 ≤ m) (h2 : m ≤ 12) (rest : List Char) :
    parseMonth (pad2 m ++ rest) = some (m, rest) := by
  interval_cases m <;> rfl

/-- The `%d` pattern recovers the day from its zero-padded rendering. -/
theorem parseDay_pad2 (d : Nat) (h1 : 1 ≤ d) (h2 : d ≤ 31) (rest : List Char) :
    parseDay (pad2 d ++ rest) = some (d, rest) := by
  interval_cases d <;> rfl

/-- Unfolding of the literal-dot-then-whitespace fragment. -/
theorem expectDotWs_dot_space (cs : List Char) :
    expectDotWs ('.' :: ' ' :: cs) = some (skipWsAll cs) := rfl

/-- Every month length is at most 31. -/
theorem daysInMonth_le31 (y m : Nat) : daysInMonth y m ≤ 31 := by
  unfold daysInMonth
  split_ifs <;> omega

/-- C8: the platform-A date reparse converts every published date of shape
`YYYY. MM. DD.` (four-digit year, zero-padded month and day, valid
calendar date) into the ISO form `YYYY-MM-DD`; in particular
`"2023. 01. 05."` yields `"2023-01-05"` (see the witness). -/
theorem C8_tistory_date_reparse (y m d : Nat) (hy1 : 1 ≤ y) (hy : y ≤ 9999)
    (hm1 : 1 ≤ m) (hm : m ≤ 12) (hd1 : 1 ≤ d) (hd : d ≤ daysInMonth y m) :
    tistory_reparse ⟨pad4 y ++ '.' :: ' ' :: (pad2 m ++ '.' :: ' ' :: (pad2 d ++ ['.']))⟩ =
      some ⟨pad4 y ++ '-' :: (pad2 m ++ '-' :: pad2 d)⟩ := by
  have hm10 : m / 10 % 10 ≤ 9 := by omega
  have hd10 : d / 10 % 10 ≤ 9 := by omega
  have hd31 : d ≤ 31 := le_trans hd (daysInMonth_le31 y m)
  unfold tistory_reparse strptime_Ymd_dots
  rw [show (⟨pad4 y ++ '.' :: ' ' :: (pad2 m ++ '.' :: ' ' :: (pad2 d ++ ['.']))⟩ : String).data
        = pad4 y ++ '.' :: ' ' :: (pad2 m ++ '.' :: ' ' :: (pad2 d ++ ['.'])) from rfl]
  rw [parse4Digits_pad4 y hy]
  dsimp only
  rw [expectDotWs_dot_space]
  dsimp only
  rw [show pad2 m ++ '.' :: ' ' :: (pad2 d ++ ['.'])
        = Nat.digitChar (m / 10 % 10) :: (Nat.digitChar (m % 10) :: ('.' :: ' ' :: (pad2 d ++ ['.']))) from rfl]
  rw [skipWsAll_digitChar _ hm10]
  rw [show (Nat.digitChar (m / 10 % 10) :: (Nat.digitChar (m % 10) :: ('.' :: ' ' :: (pad2 d ++ ['.']))))
        = pad2 m ++ ('.' :: ' ' :: (pad2 d ++ ['.'])) from rfl]
  rw [parseMonth_pad2 m hm1 hm]
  dsimp only
  rw [expectDotWs_dot_space]
  dsimp only
  rw [show pad2 d ++ ['.'] = Nat.digitChar (d / 10 % 10) :: (Nat.digitChar (d % 10) :: ['.']) from rfl]
  rw [skipWsAll_digitChar _ hd10]
  rw [show (Nat.digitChar (d / 10 % 10) :: (Nat.digitChar (d % 10) :: ['.']))
        = pad2 d ++ ['.'] from rfl]
  rw [parseDay_pad2 d hd1 hd31]
  dsimp only
  simp only [expectDotEnd, if_true]
  simp [hy1, hd, strftime_iso]

/-- C8 witness: the theorem applied at year 2023, month 1, day 5. -/
theorem C8_witness :
    (1 ≤ 5 ∧ 5 ≤ daysInMonth 2023 1) ∧
    tistory_reparse "2023. 01. 05." = some "2023-01-05" :=
  ⟨by decide,
   C8_tistory_date_reparse 2023 1 5 (by decide) (by decide) (by decide) (by decide)
     (by decide) (by decide)⟩

/-- Frame relation between the input and output states of the crawl: every
field except the page cursor is unchanged, and the posts list — when the
key is present — has only been extended on the right. -/
def framePreserved (s s1 : SiteInfo) : Prop :=
  s1.status = s.status ∧ s1.message = s.message ∧ s1.type = s.type ∧
  s1.name = s.name ∧ s1.id = s.id ∧ s1.p_url = s.p_url ∧
  ∃ t, s1.posts = s.posts.map (fun ps => ps ++ t)

/-- Reflexivity of the frame relation. -/
theorem framePreserved_refl (s : SiteInfo) : framePreserved s s := by
  refine ⟨rfl, rfl, rfl, rfl, rfl, rfl, [], ?_⟩
  cases s.posts <;> simp

/-- Transitivity of the frame relation. -/
theorem framePreserved_trans {s s1 s2 : SiteInfo}
    (h1 : framePreserved s s1) (h2 : framePreserved s1 s2) : framePreserved s s2 := by
  obtain ⟨a1, b1, c1, d1, e1, f1, t1, hp1⟩ := h1
  obtain ⟨a2, b2, c2, d2, e2, f2, t2, hp2⟩ := h2
  refine ⟨a2.trans a1, b2.trans b1, c2.trans c1, d2.trans d1, e2.trans e1, f2.trans f1,
    t1 ++ t2, ?_⟩
  rw [hp2, hp1]
  cases s.posts <;> simp

/-- Updating the page cursor and appending to a present posts list
preserves the frame. -/
theorem framePreserved_update (s : SiteInfo) (pp : Option JVal) (item : List Post)
    (ps : List Post) (hp : s.posts = some ps) :
    framePreserved s { s with p_page := pp, posts := some (ps ++ item) } := by
  refine ⟨rfl, rfl, rfl, rfl, rfl, rfl, item, ?_⟩
  rw [hp]
  rfl

/-- Updating only the page cursor preserves the frame. -/
theorem framePreserved_pp (s : SiteInfo) (pp : Option JVal) :
    framePreserved s { s with p_page := pp } := by
  refine ⟨rfl, rfl, rfl, rfl, rfl, rfl, [], ?_⟩
  cases s.posts <;> simp

/-- The platform-A item loop only appends to the posts list; every other
field, the page cursor included, is unchanged. -/
theorem tistory_rows_frame (rows : List JVal) : ∀ (s s1 : SiteInfo),
    tistory_rows rows s = .ok s1 → framePreserved s s1 ∧ s1.p_page = s.p_page := by
  induction rows with
  | nil =>
    intro s s1 h
    simp only [tistory_rows] at h
    cases h
    exact ⟨framePreserved_refl s, rfl⟩
  | cons row rest ih =>
    intro s s1 h
    simp only [tistory_rows] at h
    rcases hti : tistory_item row with e | item <;> rw [hti] at h <;> dsimp only at h
    · cases h
    · rcases hp : s.posts with _ | ps <;> rw [hp] at h <;> dsimp only at h
      · cases h
      · obtain ⟨hf, hpp⟩ := ih _ _ h
        exact ⟨framePreserved_trans (framePreserved_update s s.p_page [item] ps hp) hf, hpp⟩

/-- The platform-B row loop only appends to the posts list and moves the
page cursor; every other field is unchanged. -/
theorem velog_rows_frame (uid : String) (rows : List JVal) : ∀ (s s1 : SiteInfo),
    velog_rows uid rows s = .ok s1 → framePreserved s s1 := by
  induction rows with
  | nil =>
    intro s s1 h
    simp only [velog_rows] at h
    cases h
    exact framePreserved_refl s
  | cons row rest ih =>
    intro s s1 h
    simp only [velog_rows] at h
    rcases hvi : velog_item uid row with e | item <;> rw [hvi] at h <;> dsimp only at h
    · cases h
    · rcases hri : pyIndex row "id" with e | rid <;> rw [hri] at h <;> dsimp only at h
      · cases h
      · rcases hp : s.posts with _ | ps <;> rw [hp] at h <;> dsimp only at h
        · cases h
        · exact framePreserved_trans (framePreserved_update s (some rid) [item] ps hp)
            (ih _ _ h)

/-- One platform-A page step preserves the frame whether it stops or
recurses. -/
theorem tistory_step_frame (page : JVal) (body : String) (s s1 : SiteInfo)
    (h : tistory_step page body s = .done s1 ∨ tistory_step page body s = .again s1) :
    framePreserved s s1 := by
  unfold tistory_step at h
  rcases hj : json_loads body with e | resp <;> rw [hj] at h <;> (try dsimp only at h)
  · rcases h with h | h <;> cases h
  · rcases hd : pyIndex resp "data" with e | data <;> rw [hd] at h <;> (try dsimp only at h)
    · rcases h with h | h <;> cases h
    · rcases hi : pyIndex data "items" with e | items <;> rw [hi] at h <;> (try dsimp only at h)
      · rcases h with h | h <;> cases h
      · cases items <;> (try dsimp only at h)
        case arr rows =>
          rcases hr : tistory_rows rows s with e | s2 <;> rw [hr] at h <;> (try dsimp only at h)
          · rcases h with h | h <;> cases h
          · rcases hn : pyIndex data "nextPage" with e | np <;> rw [hn] at h <;>
              (try dsimp only at h)
            · rcases h with h | h <;> cases h
            · have hfr := (tistory_rows_frame rows s s2 hr).1
              cases np <;> (try dsimp only at h)
              case null =>
                rcases h with h | h <;> cases h
                exact hfr
              all_goals
                cases page <;> (try dsimp only at h) <;> rcases h with h | h <;> cases h <;>
                  exact framePreserved_trans hfr (framePreserved_pp s2 _)
        all_goals rcases h with h | h <;> cases h

/-- One platform-B page step preserves the frame whether it stops or
recurses. -/
theorem velog_step_frame (uid : String) (body : String) (s s1 : SiteInfo)
    (h : velog_step uid body s = .done s1 ∨ velog_step uid body s = .again s1) :
    framePreserved s s1 := by
  unfold velog_step at h
  rcases hj : json_loads body with e | resp <;> rw [hj] at h <;> (try dsimp only at h)
  · rcases h with h | h <;> cases h
  · rcases hd : pyIndex resp "data" with e | data <;> rw [hd] at h <;> (try dsimp only at h)
    · rcases h with h | h <;> cases h
    · rcases hi : pyIndex data "posts" with e | posts <;> rw [hi] at h <;> (try dsimp only at h)
      · rcases h with h | h <;> cases h
      · cases posts <;> (try dsimp only at h)
        case arr rows =>
          rcases hr : velog_rows uid rows s with e | s2 <;> rw [hr] at h <;>
            (try dsimp only at h)
          · rcases h with h | h <;> cases h
          · have hfr := velog_rows_frame uid rows s s2 hr
            cases rows <;> (try dsimp only at h) <;> rcases h with h | h <;> cases h <;>
              exact hfr
        all_goals rcases h with h | h <;> cases h

/-- Frame property of the full recursion: whenever `get_posts` returns
normally, everything except the page cursor and the appended posts is
unchanged. -/
theorem get_posts_frame (stub : List (Except String String)) : ∀ (s s1 : SiteInfo)
    (tr : List String), get_posts stub s = .ok (s1, tr) → framePreserved s s1 := by
  induction stub with
  | nil =>
    intro s s1 tr h
    rw [get_posts_nil] at h
    cases hd : get_posts_dispatch s <;> rw [hd] at h <;> (try dsimp only at h)
    · cases h
      exact framePreserved_refl s
    · cases h
    · cases h
    · cases h
  | cons r rest ih =>
    intro s s1 tr h
    rw [get_posts_cons] at h
    cases hd : get_posts_dispatch s <;> rw [hd] at h <;> (try dsimp only at h)
    · cases h
      exact framePreserved_refl s
    · cases h
    case tReq url page =>
      rcases r with e | body <;> (try dsimp only at h)
      · cases h
      · rcases hs : tistory_step page body s with s2 | s2 | e <;> rw [hs] at h <;>
          (try dsimp only at h)
        · cases h
          exact tistory_step_frame page body s _ (Or.inl hs)
        · rcases hg : get_posts rest s2 with e2 | p <;> rw [hg] at h <;> (try dsimp only at h)
          · cases h
          · obtain ⟨s3, tr3⟩ := p
            dsimp only at h
            cases h
            exact framePreserved_trans (tistory_step_frame page body s s2 (Or.inr hs))
              (ih s2 _ tr3 hg)
        · cases h
    case vReq payload uid =>
      rcases r with e | body <;> (try dsimp only at h)
      · cases h
      · rcases hs : velog_step uid body s with s2 | s2 | e <;> rw [hs] at h <;>
          (try dsimp only at h)
        · cases h
          exact velog_step_frame uid body s _ (Or.inl hs)
        · rcases hg : get_posts rest s2 with e2 | p <;> rw [hg] at h <;> (try dsimp only at h)
          · cases h
          · obtain ⟨s3, tr3⟩ := p
            dsimp only at h
            cases h
            exact framePreserved_trans (velog_step_frame uid body s s2 (Or.inr hs))
              (ih s2 _ tr3 hg)
        · cases h

/-- C9: frame property of `get_posts`.  For every state whose platform tag
is `tistory` or `velog`, a normal return leaves `status`, `message`,
`type`, `name`, `id` and `p_url` identical, and the posts list — when its
key is present — is only appended to, never shrunk or reordered; only the
page cursor and the posts accumulate changes. -/
theorem C9_get_posts_frame_property (stub : List (Except String String))
    (s s1 : SiteInfo) (tr : List String)
    (_hplat : s.type = some "tistory" ∨ s.type = some "velog")
    (h : get_posts stub s = .ok (s1, tr)) :
    s1.status = s.status ∧ s1.message = s.message ∧ s1.type = s.type ∧
    s1.name = s.name ∧ s1.id = s.id ∧ s1.p_url = s.p_url ∧
    ∃ t, s1.posts = s.posts.map (fun ps => ps ++ t) :=
  get_posts_frame stub s s1 tr h

/-- C9 witness: the frame theorem applied to a concrete one-page velog
crawl. -/
theorem C9_witness :
    ((velogInfo "bob").type = some "tistory" ∨ (velogInfo "bob").type = some "velog") ∧
    get_posts [.ok velogPage0Body] (velogInfo "bob") =
      .ok (velogInfo "bob",
           [pyReplace (pyReplace velogQueryTemplate "#cursor" "") "#id" "bob"]) ∧
    ((velogInfo "bob").status = (velogInfo "bob").status ∧
     (velogInfo "bob").message = (velogInfo "bob").message ∧
     (velogInfo "bob").type = (velogInfo "bob").type ∧
     (velogInfo "bob").name = (velogInfo "bob").name ∧
     (velogInfo "bob").id = (velogInfo "bob").id ∧
     (velogInfo "bob").p_url = (velogInfo "bob").p_url ∧
     ∃ t, (velogInfo "bob").posts = (velogInfo "bob").posts.map (fun ps => ps ++ t)) :=
  ⟨Or.inr rfl, rfl,
   C9_get_posts_frame_property [.ok velogPage0Body] (velogInfo "bob") (velogInfo "bob")
     [pyReplace (pyReplace velogQueryTemplate "#cursor" "") "#id" "bob"]
     (Or.inr rfl) rfl⟩

/-! ## Reachability analysis of the degenerate velog branch (claim C5)

The velog capture group is `@[^/]+`: an at sign followed by at least one
non-slash character.  The extracted handle `group(1)[1:]` is therefore
never the empty string, so the `if id:` fallback that would return the
platform tag without identifiers is dead code — no URL reaches it. -/

/-- A successful match of the pattern continuation has shape
`@` followed by at least one character. -/
theorem velogAt_shape (cs g : List Char) (h : velogAt cs = some g) :
    ∃ c rest2, g = '@' :: c :: rest2 := by
  rcases cs with _ | ⟨a, cs2⟩
  · simp [velogAt] at h
  · unfold velogAt at h
    dsimp only at h
    by_cases ha : a = '@'
    · rw [if_pos ha] at h
      rcases htw : List.takeWhile (fun c => c != '/') cs2 with _ | ⟨c, run⟩ <;>
        rw [htw] at h <;> dsimp only at h
      · cases h
      · cases h
        exact ⟨c, run, rfl⟩
    · rw [if_neg ha] at h
      cases h

/-- Every capture group returned by the velog scan has shape `@` followed
by at least one character. -/
theorem velogScan_shape (cs : List Char) : ∀ g, velogScan cs = some g →
    ∃ c rest2, g = '@' :: c :: rest2 := by
  induction cs with
  | nil =>
    intro g h
    simp [velogScan] at h
  | cons a cs ih =>
    intro g h
    simp only [velogScan] at h
    by_cases hp : velogLit.isPrefixOf (a :: cs) = true
    · rw [if_pos hp] at h
      rcases hv : velogAt ((a :: cs).drop velogLit.length) with _ | g2 <;>
        rw [hv] at h <;> dsimp only at h
      · exact ih g h
      · cases h
        exact velogAt_shape _ _ hv
    · rw [if_neg hp] at h
      dsimp only at h
      exact ih g h

/-- The handle extracted from a successful velog URL match is never the
empty string. -/
theorem velogMatch_handle_nonempty (url g : String) (h : velogMatch url = some g) :
    (⟨g.data.drop 1⟩ : String) ≠ "" := by
  unfold velogMatch at h
  rcases hs : velogScan url.data with _ | gl <;> rw [hs] at h <;> dsimp only at h
  · cases h
  · cases h
    obtain ⟨c, rest2, rfl⟩ := velogScan_shape url.data gl hs
    intro hcon
    have hdata : (c :: rest2) = ([] : List Char) := congrArg String.data hcon
    cases hdata

/-- The `try` block of `get_site_info` never returns the degenerate
bare-velog dictionary. -/
theorem get_site_info_core_ne_bare (res : Except String String) (url : String)
    (s : SiteInfo) (h : get_site_info_core res url = .ok s) : s ≠ velogBareInfo := by
  unfold get_site_info_core at h
  rcases res with e | content
  · cases h
  · dsimp only at h
    split at h
    · -- Tistory branch
      rcases hc : configSearch content with _ | cfgStr <;> rw [hc] at h <;> dsimp only at h
      · cases h
        intro hcon
        have h2 := congrArg SiteInfo.status hcon
        simp [lookupFailedInfo, velogBareInfo] at h2
      · rcases hj : json_loads cfgStr with e | cfg <;> rw [hj] at h <;> dsimp only at h
        · cases h
        · rcases hb : pyIndex cfg "BLOG" with e | blog <;> rw [hb] at h <;> dsimp only at h
          · cases h
          · rcases hn : pyIndex blog "name" with e | nm <;> rw [hn] at h <;> dsimp only at h
            · cases h
            · rcases hi : pyIndex blog "id" with e | bid <;> rw [hi] at h <;> dsimp only at h
              · cases h
              · cases h
                intro hcon
                have h2 := congrArg SiteInfo.type hcon
                simp [tistoryInfo, velogBareInfo] at h2
    · split at h
      · -- velog branch
        rcases hm : velogMatch url with _ | g1 <;> rw [hm] at h <;> dsimp only at h
        · cases h
        · split at h
          · -- empty-handle branch: contradicts velogMatch_handle_nonempty
            cases h
            rename_i hempty
            exact absurd hempty (velogMatch_handle_nonempty url g1 hm)
          · cases h
            intro hcon
            have h2 := congrArg SiteInfo.name hcon
            simp [velogInfo, velogBareInfo] at h2
      · cases h
        intro hcon
        have h2 := congrArg SiteInfo.status hcon
        simp [lookupFailedInfo, velogBareInfo] at h2

/-- Dead code: `get_site_info` never returns the degenerate bare-velog
dictionary described by claim C5, on any input. -/
theorem velogBare_unreachable (res : Except String String) (url : String) :
    get_site_info res url ≠ velogBareInfo := by
  unfold get_site_info
  split
  · intro hcon
    have h2 := congrArg SiteInfo.status hcon
    simp [urlMissingInfo, velogBareInfo] at h2
  · rcases hc : get_site_info_core res url with e | s <;> dsimp only
    · intro hcon
      have h2 := congrArg SiteInfo.status hcon
      simp [lookupFailedInfo, velogBareInfo] at h2
    · exact get_site_info_core_ne_bare res url s hc
